import Mathlib

/-!
Verification of the returns/refund tracker core logic: the create-form
validation, the 25-record creation ceiling, the OCR autofill merge, the
derived reminder and deadline signals, the image compression pipeline,
the remote-error handling of the list handlers, and the local receipt
image store.  Dates are modelled as integer day numbers (time of day is
zeroed by the code before every comparison); instants are integer
milliseconds where the code subtracts raw timestamps; prices and pixel
dimensions are rationals.
-/

/-! ## Create-form draft and validation (AddReturnDialog.handleSubmit) -/

/-- A draft as typed into the create form: the store name text, the
parsed price (none when parseFloat yields NaN), and the three calendar
dates as day numbers, the last two optional. -/
structure Draft where
  storeName : String
  price : Option ℚ
  purchaseDate : Option Int
  returnByDate : Option Int
  returnedDate : Option Int

/-- The machine-checkable kinds of first-reported validation failures of
AddReturnDialog.handleSubmit, in the order the code can emit them. -/
inductive VErr where
  | PURCHASE_DATE_REQUIRED
  | EMPTY_STORE_NAME
  | STORE_NAME_TOO_LONG
  | PRICE_NOT_POSITIVE
  | PRICE_TOO_LARGE
  | RETURNED_IN_FUTURE
  | PURCHASE_DATE_FUTURE
  | RETURNED_BEFORE_PURCHASE
  | RETURN_BY_IN_PAST
  | RETURN_BY_BEFORE_PURCHASE
deriving DecidableEq, Repr

/-- True when the optional date is strictly after the bound (used for
the returned-date-in-future test). -/
def dateAfter (od : Option Int) (bound : Int) : Bool :=
  match od with
  | none => false
  | some d => bound < d

/-- True when the optional date is strictly before the bound (used for
the before-purchase and in-the-past tests). -/
def dateBefore (od : Option Int) (bound : Int) : Bool :=
  match od with
  | none => false
  | some d => d < bound

/-- Leading and trailing whitespace removal on the character list of a
string, mirroring the trim the zod schema applies before its length
checks (spelled out structurally so concrete inputs evaluate). -/
def trimChars (s : List Char) : List Char :=
  ((s.dropWhile Char.isWhitespace).reverse.dropWhile Char.isWhitespace).reverse

/-- First failure of the zod schema in returnSchema: trimmed store name
non-empty and at most 100 characters, then price positive and at most
999999.99 (a NaN price fails the number check). -/
def zodFirstError (d : Draft) : Option VErr :=
  if trimChars d.storeName.data = [] then some .EMPTY_STORE_NAME
  else if 100 < (trimChars d.storeName.data).length then some .STORE_NAME_TOO_LONG
  else
    match d.price with
    | none => some .PRICE_NOT_POSITIVE
    | some p =>
      if 0 < p then
        if (999999.99 : ℚ) < p then some .PRICE_TOO_LARGE else none
      else some .PRICE_NOT_POSITIVE

/-- The validation sequence of AddReturnDialog.handleSubmit: the
purchase-date-required guard, then the zod schema, then the temporal
checks exactly in source order (returned not in future, purchase not in
future, returned on or after purchase, return-by not in the past,
return-by on or after purchase), short-circuiting on the first
failure. -/
def validate (d : Draft) (today : Int) : Except VErr Unit :=
  match d.purchaseDate with
  | none => .error .PURCHASE_DATE_REQUIRED
  | some pd =>
    match zodFirstError d with
    | some e => .error e
    | none =>
      if dateAfter d.returnedDate today then .error .RETURNED_IN_FUTURE
      else if today < pd then .error .PURCHASE_DATE_FUTURE
      else if dateBefore d.returnedDate pd then .error .RETURNED_BEFORE_PURCHASE
      else if dateBefore d.returnByDate today then .error .RETURN_BY_IN_PAST
      else if dateBefore d.returnByDate pd then .error .RETURN_BY_BEFORE_PURCHASE
      else .ok ()

/-- Modelled from the spec wording of section 3: the five record
invariants exactly as the claim lists them (purchase not in the future,
returned within purchase..today when present, return-by on or after
purchase when present, price in the half-open range up to 999999.99,
store name non-empty after trim). -/
def invariants1to5 (d : Draft) (today : Int) : Prop :=
  (∀ pd, d.purchaseDate = some pd → pd ≤ today) ∧
  (∀ pd, d.purchaseDate = some pd →
    ∀ rd, d.returnedDate = some rd → pd ≤ rd ∧ rd ≤ today) ∧
  (∀ pd, d.purchaseDate = some pd →
    ∀ rb, d.returnByDate = some rb → pd ≤ rb) ∧
  (∃ p, d.price = some p ∧ 0 < p ∧ p ≤ (999999.99 : ℚ)) ∧
  trimChars d.storeName.data ≠ []

/-- The exact acceptance condition of validate: purchase date present
and not in the future, returned date (when present) within
purchase..today, return-by date (when present) on or after the purchase
date and also on or after today, price parsed and in range, trimmed
store name non-empty and at most 100 characters. -/
def acceptSpec (d : Draft) (today : Int) : Prop :=
  (∃ pd, d.purchaseDate = some pd ∧ pd ≤ today ∧
    (∀ rd, d.returnedDate = some rd → pd ≤ rd ∧ rd ≤ today) ∧
    (∀ rb, d.returnByDate = some rb → pd ≤ rb ∧ today ≤ rb)) ∧
  (∃ p, d.price = some p ∧ 0 < p ∧ p ≤ (999999.99 : ℚ)) ∧
  trimChars d.storeName.data ≠ [] ∧ (trimChars d.storeName.data).length ≤ 100

/-! ## Check ordering (for the fixed-order claim) -/

/-- Purchase-date-required guard as a standalone check. -/
def chkPurchasePresent (d : Draft) (_t : Int) : Option VErr :=
  match d.purchaseDate with
  | none => some .PURCHASE_DATE_REQUIRED
  | some _ => none

/-- Store name non-empty after trim. -/
def chkStoreEmpty (d : Draft) (_t : Int) : Option VErr :=
  if trimChars d.storeName.data = [] then some .EMPTY_STORE_NAME else none

/-- Store name at most 100 characters after trim. -/
def chkStoreLong (d : Draft) (_t : Int) : Option VErr :=
  if 100 < (trimChars d.storeName.data).length then some .STORE_NAME_TOO_LONG else none

/-- Price parses and is positive. -/
def chkPricePositive (d : Draft) (_t : Int) : Option VErr :=
  match d.price with
  | none => some .PRICE_NOT_POSITIVE
  | some p => if 0 < p then none else some .PRICE_NOT_POSITIVE

/-- Price at most 999999.99. -/
def chkPriceMax (d : Draft) (_t : Int) : Option VErr :=
  match d.price with
  | none => none
  | some p => if (999999.99 : ℚ) < p then some .PRICE_TOO_LARGE else none

/-- Returned date not in the future. -/
def chkReturnedFuture (d : Draft) (t : Int) : Option VErr :=
  if dateAfter d.returnedDate t then some .RETURNED_IN_FUTURE else none

/-- Purchase date not in the future. -/
def chkPurchaseFuture (d : Draft) (t : Int) : Option VErr :=
  match d.purchaseDate with
  | none => none
  | some pd => if t < pd then some .PURCHASE_DATE_FUTURE else none

/-- Returned date on or after the purchase date. -/
def chkReturnedBeforePurchase (d : Draft) (_t : Int) : Option VErr :=
  match d.purchaseDate with
  | none => none
  | some pd =>
    if dateBefore d.returnedDate pd then some .RETURNED_BEFORE_PURCHASE else none

/-- Return-by date not in the past. -/
def chkReturnByPast (d : Draft) (t : Int) : Option VErr :=
  if dateBefore d.returnByDate t then some .RETURN_BY_IN_PAST else none

/-- Return-by date on or after the purchase date. -/
def chkReturnByBeforePurchase (d : Draft) (_t : Int) : Option VErr :=
  match d.purchaseDate with
  | none => none
  | some pd =>
    if dateBefore d.returnByDate pd then some .RETURN_BY_BEFORE_PURCHASE else none

/-- The ten checks of the create-form validation in the order the source
runs them. -/
def checkOrder : List (Draft → Int → Option VErr) :=
  [chkPurchasePresent, chkStoreEmpty, chkStoreLong, chkPricePositive,
   chkPriceMax, chkReturnedFuture, chkPurchaseFuture,
   chkReturnedBeforePurchase, chkReturnByPast, chkReturnByBeforePurchase]

/-- First failing check of a list of checks, in list order. -/
def firstFailure (cs : List (Draft → Int → Option VErr)) (d : Draft) (t : Int) :
    Option VErr :=
  match cs with
  | [] => none
  | c :: rest =>
    match c d t with
    | some e => some e
    | none => firstFailure rest d t

/-! ## Creation ceiling (handleSubmit pre-check and check_return_limit) -/

/-- Outcome of an attempted record creation. -/
inductive CreateOutcome where
  | rejectedLocally
  | rejectedByTrigger
  | created
deriving DecidableEq, Repr

/-- The client pre-create guard of handleSubmit: reject when the fetched
count for the user is already at least 25. -/
def preCreateGuardRejects (count : Nat) : Bool :=
  decide (25 ≤ count)

/-- The server-side trigger function check_return_limit: raise when the
user already has 25 or more returns, otherwise let the insert through. -/
def check_return_limit (count : Nat) : Except String Unit :=
  if 25 ≤ count then
    .error "Maximum return limit reached 25 per user. Please delete old returns to add new ones."
  else .ok ()

/-- The full creation path: the client guard runs first and, only when
it passes, the remote insert is attempted and the trigger rules on it. -/
def createReturn (count : Nat) : CreateOutcome :=
  if preCreateGuardRejects count then .rejectedLocally
  else
    match check_return_limit count with
    | .error _ => .rejectedByTrigger
    | .ok _ => .created

/-! ## OCR autofill merge (AddReturnDialog.handleImageUpload) -/

/-- The extraction response: optional store name and amount, and the two
dates already parsed (none stands for an absent field or one whose
MM/DD/YYYY text failed to parse, either of which leaves the draft
untouched). -/
structure OcrExtract where
  storeName : Option String
  amount : Option ℚ
  purchaseDate : Option Int
  returnByDate : Option Int

/-- The create-form field state the merge acts on: store name and price
as typed (price still text), plus the two calendar fields. -/
structure FormDraftState where
  storeName : String
  price : String
  purchaseDate : Option Int
  returnByDate : Option Int
deriving DecidableEq, Repr

/-- The autofill merge of handleImageUpload: every truthy extracted
field is written into the form state unconditionally (an empty extracted
string and a zero amount are falsy in the source and skipped). -/
def applyExtracted (d : FormDraftState) (x : OcrExtract) : FormDraftState :=
  { storeName :=
      match x.storeName with
      | some s => if s = "" then d.storeName else s
      | none => d.storeName
    price :=
      match x.amount with
      | some a => if a = 0 then d.price else toString a
      | none => d.price
    purchaseDate :=
      match x.purchaseDate with
      | some dt => some dt
      | none => d.purchaseDate
    returnByDate :=
      match x.returnByDate with
      | some dt => some dt
      | none => d.returnByDate }

/-! ## Derived refund reminder (ReturnCard, ReturnDetailDialog) -/

/-- Whole days elapsed since the returned date, as ReturnCard computes
it: floor of the millisecond difference divided by one day, zero when no
returned date is set. -/
def daysSinceReturned (nowMs : Int) (returnedMs : Option Int) : Int :=
  match returnedMs with
  | none => 0
  | some r => (nowMs - r).fdiv 86400000

/-- The ReturnCard reminder flag: refund not received, a returned date
present, and at least three whole days elapsed since it. -/
def needsRefundReminder (nowMs : Int) (returnedMs : Option Int)
    (refundReceived : Bool) : Bool :=
  !refundReceived && returnedMs.isSome &&
    decide (3 ≤ daysSinceReturned nowMs returnedMs)

/-- The ReturnDetailDialog variant: elapsed days is null when no
returned date is set, and the flag additionally tests that it is not
null. -/
def detailDaysSinceReturned (nowMs : Int) (returnedMs : Option Int) :
    Option Int :=
  returnedMs.map (fun r => (nowMs - r).fdiv 86400000)

/-- The ReturnDetailDialog reminder flag. -/
def detailNeedsRefundReminder (nowMs : Int) (returnedMs : Option Int)
    (refundReceived : Bool) : Bool :=
  returnedMs.isSome && !refundReceived &&
    (match detailDaysSinceReturned nowMs returnedMs with
     | none => false
     | some ds => decide (3 ≤ ds))

/-! ## Deadline classification (checkAndScheduleNotifications) -/

/-- The classification a record gets from the deadline scan. -/
inductive DeadlineClass where
  | overdue
  | dueSoon
  | quiet
deriving DecidableEq, Repr

/-- Per-record deadline logic of checkAndScheduleNotifications: with a
return-by date set, overdue when it is strictly before today, otherwise
due soon when it is at most three days from today. -/
def classifyReturnBy (returnByDate : Option Int) (today : Int) : DeadlineClass :=
  match returnByDate with
  | none => .quiet
  | some rd =>
    if rd < today then .overdue
    else if rd ≤ today + 3 then .dueSoon
    else .quiet

/-- The scan only fetches rows with refund_received false, so a record
with the refund already received is never classified. -/
def notificationClass (refundReceived : Bool) (returnByDate : Option Int)
    (today : Int) : DeadlineClass :=
  if refundReceived then .quiet else classifyReturnBy returnByDate today

/-! ## Image compression dimensions -/

/-- Output pixel dimensions of EditReturnDialog.compressImage: only the
width is capped at 1200, the height following by the aspect ratio. -/
def compressImageDims (w h : ℚ) : ℚ × ℚ :=
  if 1200 < w then (1200, h * 1200 / w) else (w, h)

/-- Output pixel dimensions of the inline resize in
AddReturnDialog.handleImageUpload: when either dimension exceeds 1200
the larger one is set to 1200 and the other follows by the aspect
ratio. -/
def addUploadResizeDims (w h : ℚ) : ℚ × ℚ :=
  if 1200 < w ∨ 1200 < h then
    if h < w then (1200, h / w * 1200) else (w / h * 1200, 1200)
  else (w, h)

/-! ## Image upload failure paths -/

/-- The asynchronous environment one upload runs in: the picked file
size, whether the FileReader succeeds, the decoded dimensions (none when
the Image element fires onerror), whether a canvas context is available,
the string toDataURL produces, and whether the 30 second timeout fired
first. -/
structure ImageUploadEnv where
  fileSize : Nat
  readOk : Bool
  decoded : Option (ℚ × ℚ)
  ctxOk : Bool
  encodeOut : String
  timedOut : Bool

/-- The ways EditReturnDialog.compressImage can reject. -/
inductive CompressFailure where
  | timeout
  | readFailed
  | decodeFailed
  | noCanvasCtx
  | invalidOutput
deriving DecidableEq, Repr

/-- EditReturnDialog.compressImage: rejects on timeout, reader error,
decode error, missing canvas context, or an encoded result shorter than
100 characters; otherwise resolves with the encoded image. -/
def compressImageResult (env : ImageUploadEnv) : Except CompressFailure String :=
  if env.timedOut then .error .timeout
  else if !env.readOk then .error .readFailed
  else
    match env.decoded with
    | none => .error .decodeFailed
    | some _ =>
      if !env.ctxOk then .error .noCanvasCtx
      else if env.encodeOut.length < 100 then .error .invalidOutput
      else .ok env.encodeOut

/-- The receipt-image field after EditReturnDialog.handleImageUpload: an
oversized file (over 10MB) returns early leaving the field as it was;
any compressImage rejection is caught and the field cleared; on success
the result is re-checked for length and stored. -/
def editUploadReceiptField (env : ImageUploadEnv) (prev : String) : String :=
  if 10 * 1024 * 1024 < env.fileSize then prev
  else
    match compressImageResult env with
    | .error _ => ""
    | .ok s => if s.length < 100 then "" else s

/-- The receipt-image field after AddReturnDialog.handleImageUpload
starting from an empty field: an oversized file (over 5MB), a reader
error, or a decode error leave it empty; otherwise the toDataURL output
is stored unconditionally, with no timeout and no length validation. -/
def addUploadReceiptField (env : ImageUploadEnv) : String :=
  if 5 * 1024 * 1024 < env.fileSize then ""
  else if !env.readOk then ""
  else
    match env.decoded with
    | none => ""
    | some _ => env.encodeOut

/-! ## List handlers of Index (remote result then state update) -/

/-- An in-memory return record as Index holds it. -/
structure ReturnRec where
  id : String
  storeName : String
  purchaseDate : Option Int
  returnDate : Option Int
  returnedDate : Option Int
  price : ℚ
  receiptImage : Option String
  completed : Bool
  refundReceived : Bool
deriving DecidableEq, Repr

/-- A partial edit as EditReturnDialog hands it to handleEdit: present
fields overwrite, absent fields keep the record value. -/
structure EditPatch where
  storeName : Option String
  price : Option ℚ
  purchaseDate : Option (Option Int)
  returnDate : Option (Option Int)
  returnedDate : Option (Option Int)
  receiptImage : Option (Option String)

/-- Object-spread merge of a patch into a record. -/
def applyPatch (r : ReturnRec) (p : EditPatch) : ReturnRec :=
  { r with
    storeName := p.storeName.getD r.storeName
    price := p.price.getD r.price
    purchaseDate := p.purchaseDate.getD r.purchaseDate
    returnDate := p.returnDate.getD r.returnDate
    returnedDate := p.returnedDate.getD r.returnedDate
    receiptImage := p.receiptImage.getD r.receiptImage }

/-- Index.handleToggleRefund: look the record up, run the remote update,
and only on success rewrite the list with the flipped flag and derived
status. -/
def handleToggleRefund (returns : List ReturnRec) (rid : String)
    (remoteError : Bool) : List ReturnRec :=
  match returns.find? (fun r => r.id == rid) with
  | none => returns
  | some item =>
    if remoteError then returns
    else
      returns.map (fun r =>
        if r.id == rid then
          { r with refundReceived := !item.refundReceived,
                   completed := !item.refundReceived }
        else r)

/-- Index.handleMarkComplete: on remote success force the refund flag
true. -/
def handleMarkComplete (returns : List ReturnRec) (rid : String)
    (remoteError : Bool) : List ReturnRec :=
  if remoteError then returns
  else
    returns.map (fun r =>
      if r.id == rid then { r with refundReceived := true, completed := true }
      else r)

/-- Index.handleDelete: on remote success drop the record from the
list. -/
def handleDelete (returns : List ReturnRec) (rid : String)
    (remoteError : Bool) : List ReturnRec :=
  if remoteError then returns
  else returns.filter (fun r => !(r.id == rid))

/-- Index.handleMarkReturned: on remote success set the returned
date. -/
def handleMarkReturned (returns : List ReturnRec) (rid : String) (d : Int)
    (remoteError : Bool) : List ReturnRec :=
  if remoteError then returns
  else
    returns.map (fun r =>
      if r.id == rid then { r with returnedDate := some d } else r)

/-- Index.handleEdit: on remote success spread the patch over the
matching record. -/
def handleEdit (returns : List ReturnRec) (rid : String) (p : EditPatch)
    (remoteError : Bool) : List ReturnRec :=
  if remoteError then returns
  else
    returns.map (fun r => if r.id == rid then applyPatch r p else r)

/-! ## Local receipt image store (imageStorage.ts) -/

/-- The IndexedDB object store keyed by return id. -/
def ReceiptStore : Type := String → Option String

/-- A store holding no images. -/
def emptyReceiptStore : ReceiptStore := fun _ => none

/-- saveReceiptImage: put the encoded image under the return id,
replacing any previous value. -/
def saveReceiptImage (st : ReceiptStore) (returnId image : String) :
    ReceiptStore :=
  fun k => if k = returnId then some image else st k

/-- getReceiptImage: read the value under the id and resolve with
request.result or null, so a missing key and a falsy stored value both
come back as null. -/
def getReceiptImage (st : ReceiptStore) (returnId : String) : Option String :=
  match st returnId with
  | none => none
  | some v => if v = "" then none else some v

/-- deleteReceiptImage: drop the value under the id. -/
def deleteReceiptImage (st : ReceiptStore) (returnId : String) : ReceiptStore :=
  fun k => if k = returnId then none else st k

/-! ## Theorems -/

/-- Claim C2 (confirmed): with 25 or more records already owned, the
client guard rejects the creation locally, so the remote write is never
attempted, and the server trigger would reject the insert as well; with
24 records the creation goes through. -/
theorem createReturn_limit :
    (∀ n, 25 ≤ n → createReturn n = CreateOutcome.rejectedLocally ∧
      check_return_limit n = Except.error
        "Maximum return limit reached 25 per user. Please delete old returns to add new ones.") ∧
    createReturn 24 = CreateOutcome.created ∧
    check_return_limit 24 = Except.ok () := by
  refine ⟨fun n h => ⟨?_, ?_⟩, rfl, rfl⟩
  · simp [createReturn, preCreateGuardRejects, h]
  · simp [check_return_limit, h]

/-- Witness for C2 at counts 25 and 24. -/
theorem createReturn_limit_witness :
    createReturn 25 = CreateOutcome.rejectedLocally ∧
    check_return_limit 25 = Except.error
      "Maximum return limit reached 25 per user. Please delete old returns to add new ones." ∧
    createReturn 24 = CreateOutcome.created := by
  obtain ⟨h, h24, -⟩ := createReturn_limit
  exact ⟨(h 25 (by norm_num)).1, (h 25 (by norm_num)).2, h24⟩

/-- Claim C3 counterexample: the user typed the store name Target, the
extraction returned Walmart, and the merge overwrote the non-empty
user-entered field. -/
theorem applyExtracted_overwrites_counterexample :
    (applyExtracted ⟨"Target", "10", none, none⟩
      ⟨some "Walmart", none, none, none⟩).storeName = "Walmart" ∧
    "Target" ≠ "Walmart" ∧ "Target" ≠ "" := by
  exact ⟨rfl, by decide, by decide⟩

/-- Claim C3 (corrected): the merge applies every truthy extracted field
unconditionally, overwriting whatever the draft held, and leaves a field
unchanged only when the extraction did not produce it (or produced a
falsy value). -/
theorem applyExtracted_unconditional (d : FormDraftState) (x : OcrExtract) :
    (∀ s, x.storeName = some s → s ≠ "" → (applyExtracted d x).storeName = s) ∧
    (x.storeName = none → (applyExtracted d x).storeName = d.storeName) ∧
    (∀ a, x.amount = some a → a ≠ 0 → (applyExtracted d x).price = toString a) ∧
    (x.amount = none → (applyExtracted d x).price = d.price) ∧
    (∀ dt, x.purchaseDate = some dt → (applyExtracted d x).purchaseDate = some dt) ∧
    (x.purchaseDate = none → (applyExtracted d x).purchaseDate = d.purchaseDate) ∧
    (∀ dt, x.returnByDate = some dt → (applyExtracted d x).returnByDate = some dt) ∧
    (x.returnByDate = none → (applyExtracted d x).returnByDate = d.returnByDate) := by
  refine ⟨?_, ?_, ?_, ?_, ?_, ?_, ?_, ?_⟩
  · intro s hs hne; simp [applyExtracted, hs, hne]
  · intro hs; simp [applyExtracted, hs]
  · intro a ha hne; simp [applyExtracted, ha, hne]
  · intro ha; simp [applyExtracted, ha]
  · intro dt hdt; simp [applyExtracted, hdt]
  · intro hdt; simp [applyExtracted, hdt]
  · intro dt hdt; simp [applyExtracted, hdt]
  · intro hdt; simp [applyExtracted, hdt]

/-- Witness for C3 on a concrete draft and extraction result. -/
theorem applyExtracted_unconditional_witness :
    (applyExtracted ⟨"Target", "10", none, none⟩
      ⟨some "Walmart", some 5, none, none⟩).storeName = "Walmart" ∧
    (applyExtracted ⟨"Target", "10", none, none⟩
      ⟨some "Walmart", some 5, none, none⟩).price = toString (5 : ℚ) := by
  have h := applyExtracted_unconditional ⟨"Target", "10", none, none⟩
    ⟨some "Walmart", some 5, none, none⟩
  exact ⟨h.1 "Walmart" rfl (by decide), h.2.2.1 5 rfl (by norm_num)⟩

/-- Claim C5 (confirmed): the reminder flag is true exactly when a
returned date is present, the refund is not received, and at least three
days (in milliseconds) have elapsed; it is false once the refund is
received; and the detail dialog computes the same flag. -/
theorem needsRefundReminder_iff (nowMs : Int) (returnedMs : Option Int)
    (refund : Bool) :
    (needsRefundReminder nowMs returnedMs refund = true ↔
      ∃ r, returnedMs = some r ∧ refund = false ∧ 3 * 86400000 ≤ nowMs - r) ∧
    needsRefundReminder nowMs returnedMs true = false ∧
    detailNeedsRefundReminder nowMs returnedMs refund =
      needsRefundReminder nowMs returnedMs refund := by
  have key : ∀ x : Int, 3 ≤ x.fdiv 86400000 ↔ 3 * 86400000 ≤ x := by
    intro x
    rw [Int.fdiv_eq_ediv x (by norm_num)]
    exact Int.le_ediv_iff_mul_le (by norm_num)
  refine ⟨?_, ?_, ?_⟩
  · cases returnedMs with
    | none => simp [needsRefundReminder]
    | some r =>
      cases refund with
      | false => simp [needsRefundReminder, daysSinceReturned, key]
      | true => simp [needsRefundReminder]
  · cases returnedMs <;> simp [needsRefundReminder]
  · cases returnedMs <;> cases refund <;>
      simp [needsRefundReminder, detailNeedsRefundReminder,
        daysSinceReturned, detailDaysSinceReturned]

/-- Claim C6 (confirmed): for a record the scan processes (refund not
received) with a return-by date set, it is overdue exactly when today is
strictly after the date, and due soon exactly when the date has not yet
passed and is at most three days away. -/
theorem notificationClass_iff (rd t : Int) :
    (notificationClass false (some rd) t = DeadlineClass.overdue ↔ rd < t) ∧
    (notificationClass false (some rd) t = DeadlineClass.dueSoon ↔
      t ≤ rd ∧ rd ≤ t + 3) := by
  constructor <;>
  · simp only [notificationClass, classifyReturnBy, if_false, Bool.false_eq_true]
    split_ifs <;> simp_all

/-- Claim C9 (confirmed): when the remote call reports an error, every
one of the five mutating handlers returns the in-memory list exactly as
it was. -/
theorem remoteError_leaves_returns_unchanged (returns : List ReturnRec)
    (rid : String) (p : EditPatch) (d : Int) :
    handleToggleRefund returns rid true = returns ∧
    handleMarkComplete returns rid true = returns ∧
    handleDelete returns rid true = returns ∧
    handleMarkReturned returns rid d true = returns ∧
    handleEdit returns rid p true = returns := by
  refine ⟨?_, rfl, rfl, rfl, rfl⟩
  unfold handleToggleRefund
  cases returns.find? (fun r => r.id == rid) <;> rfl

/-- Claim C10 counterexample: saving the empty string under an id and
reading it back yields null, not the saved string. -/
theorem receiptStore_empty_string_counterexample :
    getReceiptImage (saveReceiptImage emptyReceiptStore "r1" "") "r1" = none ∧
    (none : Option String) ≠ some "" := by
  exact ⟨rfl, by simp⟩

/-- Claim C10 (corrected): the save and get pair round-trips every
non-empty image string, delete makes the id read back null, an id never
saved reads back null, and the one exception is the empty string, which
reads back null because the result is coerced through a truthiness
check. -/
theorem receiptStore_roundtrip_amended (st : ReceiptStore) (rid img : String) :
    (img ≠ "" → getReceiptImage (saveReceiptImage st rid img) rid = some img) ∧
    getReceiptImage (deleteReceiptImage st rid) rid = none ∧
    (st rid = none → getReceiptImage st rid = none) ∧
    getReceiptImage (saveReceiptImage st rid "") rid = none := by
  refine ⟨fun h => ?_, ?_, fun h => ?_, ?_⟩
  · simp [getReceiptImage, saveReceiptImage, h]
  · simp [getReceiptImage, deleteReceiptImage]
  · simp [getReceiptImage, h]
  · simp [getReceiptImage, saveReceiptImage]

/-- Witness for C10 on a concrete store, id and image. -/
theorem receiptStore_roundtrip_witness :
    getReceiptImage (saveReceiptImage emptyReceiptStore "r1" "pic") "r1" =
      some "pic" ∧
    getReceiptImage (deleteReceiptImage emptyReceiptStore "r1") "r1" = none ∧
    getReceiptImage emptyReceiptStore "r2" = none := by
  obtain ⟨h1, h2, -, -⟩ := receiptStore_roundtrip_amended emptyReceiptStore "r1" "pic"
  exact ⟨h1 (by decide), h2,
    (receiptStore_roundtrip_amended emptyReceiptStore "r2" "x").2.2.1 rfl⟩

/-- Claim C7 counterexample: a 50 by 3000 pixel image is 50 pixels wide
(at most 1200), yet the AddReturnDialog resize does not keep the
original dimensions: it caps the height at 1200 and scales the width to
20. -/
theorem addResize_counterexample :
    addUploadResizeDims 50 3000 = (20, 1200) ∧
    ((20 : ℚ), (1200 : ℚ)) ≠ ((50 : ℚ), (3000 : ℚ)) := by
  constructor
  · norm_num [addUploadResizeDims]
  · norm_num

/-- Claim C7 (corrected): the EditReturnDialog compression caps only the
width (inputs at most 1200 wide keep their dimensions, wider inputs come
out exactly 1200 wide with the height scaled by the same factor), while
the AddReturnDialog resize caps the larger dimension at 1200 whenever
either dimension exceeds 1200, preserving the aspect ratio and never
upscaling. -/
theorem imageDims_amended (w h : ℚ) (hw : 0 < w) (hh : 0 < h) :
    (w ≤ 1200 → compressImageDims w h = (w, h)) ∧
    (1200 < w → (compressImageDims w h).1 = 1200 ∧
      (compressImageDims w h).2 * w = h * 1200) ∧
    (w ≤ 1200 ∧ h ≤ 1200 → addUploadResizeDims w h = (w, h)) ∧
    ((1200 < w ∨ 1200 < h) →
      max (addUploadResizeDims w h).1 (addUploadResizeDims w h).2 = 1200 ∧
      (addUploadResizeDims w h).1 * h = (addUploadResizeDims w h).2 * w) := by
  have hw0 : w ≠ 0 := ne_of_gt hw
  have hh0 : h ≠ 0 := ne_of_gt hh
  refine ⟨fun hle => ?_, fun hgt => ?_, fun hboth => ?_, fun hor => ?_⟩
  · simp [compressImageDims, not_lt.2 hle]
  · refine ⟨by simp [compressImageDims, if_pos hgt], ?_⟩
    simp only [compressImageDims, if_pos hgt]
    exact div_mul_cancel₀ (h * 1200) hw0
  · simp [addUploadResizeDims, not_lt.2 hboth.1, not_lt.2 hboth.2]
  · simp only [addUploadResizeDims, if_pos hor]
    by_cases hcmp : h < w
    · simp only [if_pos hcmp]
      constructor
      · have h1 : h / w * 1200 ≤ 1200 := by
          have h2 : h / w ≤ 1 := by
            rw [div_le_one hw]
            exact le_of_lt hcmp
          nlinarith
        simpa using max_eq_left h1
      · show 1200 * h = h / w * 1200 * w
        field_simp
        ring
    · simp only [if_neg hcmp]
      push_neg at hcmp
      constructor
      · have h1 : w / h * 1200 ≤ 1200 := by
          have h2 : w / h ≤ 1 := by
            rw [div_le_one hh]
            exact hcmp
          nlinarith
        simpa using max_eq_right h1
      · show w / h * 1200 * h = 1200 * w
        field_simp
        ring

/-- Witness for C7 at 50 by 80 and 3000 by 600 for the edit-side
compression and 50 by 3000 for the add-side resize. -/
theorem imageDims_amended_witness :
    compressImageDims 50 80 = (50, 80) ∧
    (compressImageDims 3000 600).1 = 1200 ∧
    (compressImageDims 3000 600).2 * 3000 = 600 * 1200 ∧
    max (addUploadResizeDims 50 3000).1 (addUploadResizeDims 50 3000).2 = 1200 := by
  obtain ⟨ha, -, -, -⟩ := imageDims_amended 50 80 (by norm_num) (by norm_num)
  obtain ⟨-, hb, -, -⟩ := imageDims_amended 3000 600 (by norm_num) (by norm_num)
  obtain ⟨-, -, -, hd⟩ := imageDims_amended 50 3000 (by norm_num) (by norm_num)
  exact ⟨ha (by norm_num), (hb (by norm_num)).1, (hb (by norm_num)).2,
    (hd (Or.inr (by norm_num))).1⟩

/-- Claim C8 counterexample: with a small file, a working reader, a
decodable image and a near-empty encoder output, the AddReturnDialog
upload stores that output in the draft even though it is shorter than
the 100-character validity floor the repository itself uses. -/
theorem addUpload_stores_invalid_counterexample :
    addUploadReceiptField ⟨1000, true, some (10, 10), true, "data:,", false⟩ =
      "data:," ∧
    "data:," ≠ "" ∧ "data:,".length < 100 := by
  exact ⟨rfl, by decide, by decide⟩

/-- Claim C8 (corrected): in EditReturnDialog every failure after the
size gate (timeout, read error, decode error, missing context, invalid
output) clears the receipt field, and an oversized file leaves it as it
was; in AddReturnDialog the oversized, read-error and decode-error paths
leave the field empty, but on every decoded image the encoder output is
stored unconditionally, with no timeout and no near-empty check. -/
theorem uploadFailure_field_amended (env : ImageUploadEnv) (prev : String) :
    (10 * 1024 * 1024 < env.fileSize → editUploadReceiptField env prev = prev) ∧
    (env.fileSize ≤ 10 * 1024 * 1024 →
      ∀ e, compressImageResult env = Except.error e →
        editUploadReceiptField env prev = "") ∧
    (5 * 1024 * 1024 < env.fileSize → addUploadReceiptField env = "") ∧
    (env.readOk = false → addUploadReceiptField env = "") ∧
    (env.decoded = none → addUploadReceiptField env = "") ∧
    (env.fileSize ≤ 5 * 1024 * 1024 → env.readOk = true →
      ∀ wh, env.decoded = some wh → addUploadReceiptField env = env.encodeOut) := by
  refine ⟨fun hgt => ?_, fun hle e he => ?_, fun hgt => ?_, fun hro => ?_,
    fun hdec => ?_, fun hle hro wh hdec => ?_⟩
  · simp [editUploadReceiptField, hgt]
  · simp [editUploadReceiptField, not_lt.2 hle, he]
  · simp [addUploadReceiptField, hgt]
  · simp [addUploadReceiptField, hro]
  · simp [addUploadReceiptField, hdec]
  · simp [addUploadReceiptField, not_lt.2 hle, hro, hdec]

/-- Witness for C8: a timed-out edit upload clears the field, and an add
upload whose reader fails leaves it empty. -/
theorem uploadFailure_field_witness :
    editUploadReceiptField ⟨1000, true, some (10, 10), true, "x", true⟩ "keep" = "" ∧
    addUploadReceiptField ⟨1000, false, none, true, "x", false⟩ = "" := by
  obtain ⟨-, h2, -, -, -, -⟩ :=
    uploadFailure_field_amended ⟨1000, true, some (10, 10), true, "x", true⟩ "keep"
  obtain ⟨-, -, -, h4, -, -⟩ :=
    uploadFailure_field_amended ⟨1000, false, none, true, "x", false⟩ ""
  exact ⟨h2 (by norm_num) CompressFailure.timeout rfl, h4 rfl⟩

/-- Helper: the zod stage passes exactly when the trimmed store name is
non-empty and at most 100 characters and the price parses to a positive
number at most 999999.99. -/
theorem zodFirstError_eq_none_iff (d : Draft) :
    zodFirstError d = none ↔
      (trimChars d.storeName.data ≠ [] ∧ (trimChars d.storeName.data).length ≤ 100 ∧
        ∃ p, d.price = some p ∧ 0 < p ∧ p ≤ (999999.99 : ℚ)) := by
  obtain ⟨sn, pr, pdo, rbo, rdo⟩ := d
  cases pr <;> simp only [zodFirstError] <;> split_ifs <;> simp_all

/-- Claim C1 counterexample: a draft satisfying all five section-3
invariants (store A, price 1, purchase day 19990, return-by day 19999,
no returned date, today 20000) that the form nevertheless rejects,
because the return-by date lies in the past. -/
theorem validate_returnBy_past_counterexample :
    invariants1to5 ⟨"A", some 1, some 19990, some 19999, none⟩ 20000 ∧
    validate ⟨"A", some 1, some 19990, some 19999, none⟩ 20000 =
      Except.error VErr.RETURN_BY_IN_PAST := by
  constructor
  · refine ⟨?_, ?_, ?_, ⟨1, rfl, by norm_num, by norm_num⟩, by decide⟩
    · intro pd h
      injection h with h2
      subst h2
      norm_num
    · intro pd h rd hrd
      cases hrd
    · intro pd h rb hrb
      injection h with h2
      injection hrb with h3
      subst h2
      subst h3
      norm_num
  · norm_num +decide [validate, zodFirstError, dateAfter, dateBefore]

/-- Claim C1 (corrected): the form accepts a draft exactly when the five
invariants hold together with two further conditions the code enforces
(the trimmed store name is at most 100 characters and a present
return-by date is not before today), the purchase date being required;
and on any draft passing the schema stage a returned date of today plus
one is rejected with the returned-in-future error. -/
theorem validate_characterization (d : Draft) (t : Int) :
    (validate d t = Except.ok () ↔ acceptSpec d t) ∧
    (zodFirstError d = none → d.purchaseDate.isSome = true →
      d.returnedDate = some (t + 1) →
      validate d t = Except.error VErr.RETURNED_IN_FUTURE) := by
  constructor
  · cases hpd : d.purchaseDate with
    | none => simp [validate, acceptSpec, hpd]
    | some pd =>
      cases hz : zodFirstError d with
      | some e =>
        constructor
        · intro h
          simp [validate, hpd, hz] at h
        · intro h
          exfalso
          have hn := (zodFirstError_eq_none_iff d).2 ⟨h.2.2.1, h.2.2.2, h.2.1⟩
          rw [hz] at hn
          cases hn
      | none =>
        obtain ⟨hs1, hs2, p, hp, hp1, hp2⟩ := (zodFirstError_eq_none_iff d).1 hz
        unfold validate acceptSpec
        cases hrd : d.returnedDate <;> cases hrb : d.returnByDate <;>
          simp_all [dateAfter, dateBefore] <;> split_ifs <;> simp_all
  · intro hz hpds hrd
    cases hpd : d.purchaseDate with
    | none => simp [hpd] at hpds
    | some pd =>
      have hlt : t < t + 1 := by omega
      simp [validate, hpd, hz, hrd, dateAfter, hlt]

/-- Witness for C1: a fully valid draft with the returned date equal to
today is accepted, and the same draft with the returned date one day
later is rejected with the returned-in-future error. -/
theorem validate_characterization_witness :
    validate ⟨"A", some 1, some 5, none, some 5⟩ 5 = Except.ok () ∧
    validate ⟨"A", some 1, some 5, none, some 6⟩ 5 =
      Except.error VErr.RETURNED_IN_FUTURE := by
  constructor
  · refine (validate_characterization ⟨"A", some 1, some 5, none, some 5⟩ 5).1.mpr ?_
    refine ⟨⟨5, rfl, le_refl 5, ?_, ?_⟩, ⟨1, rfl, by norm_num, by norm_num⟩,
      by decide, by decide⟩
    · intro rd h
      injection h with h2
      subst h2
      exact ⟨le_refl 5, le_refl 5⟩
    · intro rb h
      cases h
  · exact (validate_characterization ⟨"A", some 1, some 5, none, some 6⟩ 5).2
      (by norm_num +decide [zodFirstError]) rfl (by norm_num)

/-- Claim C4 counterexample: a draft whose purchase date and returned
date are both one day in the future is reported with the
returned-in-future error, not the purchase-date-future error the claimed
invariant ordering would put first. -/
theorem validate_order_counterexample :
    validate ⟨"A", some 1, some 101, none, some 101⟩ 100 =
      Except.error VErr.RETURNED_IN_FUTURE ∧
    VErr.RETURNED_IN_FUTURE ≠ VErr.PURCHASE_DATE_FUTURE := by
  constructor
  · norm_num +decide [validate, zodFirstError, dateAfter, dateBefore]
  · decide

/-- Claim C4 (corrected): validation does run in a fixed order,
short-circuiting on the first failure and reporting exactly one error,
and all schema-level checks run before any temporal check; but among the
temporal checks the returned-in-future test precedes the
purchase-not-future test, and a return-by-not-in-the-past test (absent
from invariants 1 to 3) runs before the return-by-before-purchase
test. -/
theorem validate_eq_firstFailure (d : Draft) (t : Int) :
    validate d t =
      (match firstFailure checkOrder d t with
       | some e => Except.error e
       | none => Except.ok ()) := by
  obtain ⟨sn, pr, pdo, rbo, rdo⟩ := d
  cases pdo with
  | none => cases pr <;> rfl
  | some pd =>
    cases pr with
    | none =>
      simp only [checkOrder, firstFailure, chkPurchasePresent, chkStoreEmpty,
        chkStoreLong, chkPricePositive, chkPriceMax, chkReturnedFuture,
        chkPurchaseFuture, chkReturnedBeforePurchase, chkReturnByPast,
        chkReturnByBeforePurchase, validate, zodFirstError]
      split_ifs <;> rfl
    | some p =>
      simp only [checkOrder, firstFailure, chkPurchasePresent, chkStoreEmpty,
        chkStoreLong, chkPricePositive, chkPriceMax, chkReturnedFuture,
        chkPurchaseFuture, chkReturnedBeforePurchase, chkReturnByPast,
        chkReturnByBeforePurchase, validate, zodFirstError]
      by_cases h1 : trimChars sn.data = []
      case pos => simp [h1]
      by_cases h2 : 100 < (trimChars sn.data).length
      case pos => simp [h1, h2]
      by_cases h3 : 0 < p
      case neg => simp [h1, h2, h3]
      by_cases h4 : (999999.99 : ℚ) < p
      case pos => simp [h1, h2, h3, h4]
      by_cases h5 : dateAfter rdo t = true
      case pos => simp [h1, h2, h3, h4, h5]
      by_cases h6 : t < pd
      case pos => simp [h1, h2, h3, h4, h5, h6]
      by_cases h7 : dateBefore rdo pd = true
      case pos => simp [h1, h2, h3, h4, h5, h6, h7]
      by_cases h8 : dateBefore rbo t = true
      case pos => simp [h1, h2, h3, h4, h5, h6, h7, h8]
      by_cases h9 : dateBefore rbo pd = true
      case pos => simp [h1, h2, h3, h4, h5, h6, h7, h8, h9]
      simp [h1, h2, h3, h4, h5, h6, h7, h8, h9]
